import Mathlib

/-!
Shallow embedding of the KryneEngineTools Slang shader-reflection extractor
(`src/SlangCompiler/main.cpp`): the binding classifier
`ParseDescriptorBindingType` and the two-pass reflection flattener in `main`
(global scan, per-entry-point first pass, population pass).

Machine integers of the source (`u32` shape bit-masks, sizes) are modelled as
`Nat`: every operation used (`&` masking, equality tests, container sizes) is
non-overflowing.  Fallible paths (`KE_ERROR`, `ErrorCallback` + `return 1`)
are modelled with `Except`.
-/

/-- Errors of the run.  `UnsupportedStage` and `MultiplePushConstants`
correspond to the `ErrorCallback(...); return 1;` paths of `main`;
`UnsupportedAccess` and `Unreachable` correspond to the
`KE_ERROR("Unsupported access")` / `KE_ERROR("Unreachable")` branches of
`ParseDescriptorBindingType`.  Modelled from the spec: the `KE_ERROR` macro
(KryneEngine Core, not under `src/`) is a fatal error per spec sections 4.1
and 7, so both classifier branches abort the run. -/
inductive KEError : Type where
  | UnsupportedAccess
  | Unreachable
  | UnsupportedStage
  | MultiplePushConstants
deriving DecidableEq, Repr

/-- Model of `slang::TypeReflection::Kind` (third-party `slang.h`): the kinds the tool
inspects, plus the other kinds a layout may carry. -/
inductive TypeKind : Type where
  | NoneKind
  | Struct
  | Array
  | Matrix
  | Vector
  | Scalar
  | ConstantBuffer
  | Resource
  | SamplerState
  | TextureBuffer
  | ShaderStorageBuffer
  | ParameterBlock
  | GenericTypeParameter
  | Interface
deriving DecidableEq, Repr

/-- Model of `slang::ParameterCategory` (third-party `slang.h`): the categories the
tool compares against (`slang::Uniform`, `slang::PushConstantBuffer`) plus
other common categories a parameter may carry. -/
inductive ParameterCategory : Type where
  | NoneCategory
  | Mixed
  | ConstantBuffer
  | ShaderResource
  | UnorderedAccess
  | SamplerStateCategory
  | Uniform
  | DescriptorTableSlot
  | PushConstantBuffer
deriving DecidableEq, Repr

/-- Model of `SlangStage` (third-party `slang.h`). -/
inductive SlangStage : Type where
  | NoneStage
  | Vertex
  | Hull
  | Domain
  | Geometry
  | Fragment
  | Compute
  | RayGeneration
  | Intersection
  | AnyHit
  | ClosestHit
  | Miss
  | Callable
  | Mesh
  | Amplification
deriving DecidableEq, Repr

/-- Modelled from the spec: `ShaderStage::Stage` of the engine header
`ShaderPipeline.hpp` is not under `src/`; the closed stage enum is taken from
spec section 3. -/
inductive ShaderStage : Type where
  | Vertex
  | TesselationControl
  | TesselationEvaluation
  | Geometry
  | Fragment
  | Compute
  | Mesh
  | Task
deriving DecidableEq, Repr

/-- Modelled from the spec: `DescriptorBindingDesc::Type` of the engine
header `ShaderPipeline.hpp` is not under `src/`; the constructor order is the
declaration order given in spec section 3 (`Sampler | SampledTexture |
StorageReadOnlyTexture | StorageReadWriteTexture | ConstantBuffer |
StorageReadOnlyBuffer | StorageReadWriteBuffer`), which the source relies on
for the `bindingType < StorageReadOnlyBuffer` texture-likeness test. -/
inductive DescriptorBindingType : Type where
  | Sampler
  | SampledTexture
  | StorageReadOnlyTexture
  | StorageReadWriteTexture
  | ConstantBuffer
  | StorageReadOnlyBuffer
  | StorageReadWriteBuffer
deriving DecidableEq, Repr

/-- Numeric value of the enum, in declaration order, used for the source's
`<` comparison on `DescriptorBindingDesc::Type`. -/
def DescriptorBindingType.toNat : DescriptorBindingType → Nat
  | .Sampler => 0
  | .SampledTexture => 1
  | .StorageReadOnlyTexture => 2
  | .StorageReadWriteTexture => 3
  | .ConstantBuffer => 4
  | .StorageReadOnlyBuffer => 5
  | .StorageReadWriteBuffer => 6

/-- Modelled from the spec: `TextureTypes` of the engine headers is not under
`src/`; the closed enum is taken from spec section 3. -/
inductive TextureTypes : Type where
  | Single1D
  | Single2D
  | Single3D
  | SingleCube
  | Array1D
  | Array2D
  | ArrayCube
deriving DecidableEq, Repr

-- Resource-shape bit constants from the third-party `slang.h`.
def SLANG_RESOURCE_BASE_SHAPE_MASK : Nat := 0x0F
def SLANG_RESOURCE_EXT_SHAPE_MASK : Nat := 0xF0
def SLANG_TEXTURE_1D : Nat := 0x01
def SLANG_TEXTURE_2D : Nat := 0x02
def SLANG_TEXTURE_3D : Nat := 0x03
def SLANG_TEXTURE_CUBE : Nat := 0x04
def SLANG_TEXTURE_BUFFER : Nat := 0x05
def SLANG_STRUCTURED_BUFFER : Nat := 0x06
def SLANG_BYTE_ADDRESS_BUFFER : Nat := 0x07
def SLANG_TEXTURE_ARRAY_FLAG : Nat := 0x40

-- Resource-access constants from the third-party `slang.h`
-- (`SlangResourceAccess`).
def SLANG_RESOURCE_ACCESS_NONE : Nat := 0
def SLANG_RESOURCE_ACCESS_READ : Nat := 1
def SLANG_RESOURCE_ACCESS_READ_WRITE : Nat := 2
def SLANG_RESOURCE_ACCESS_WRITE : Nat := 6

/-- A variable layout over an abstract type-layout type; instantiated below
with the recursive `TypeLayoutReflection` to model
`slang::VariableLayoutReflection` (`getName`, `getBindingIndex`,
`getCategory`, `getTypeLayout`). -/
structure VariableLayoutOf (T : Type) : Type where
  name : String
  bindingIndex : Nat
  category : ParameterCategory
  typeLayout : T
deriving Repr

/-- Model of `slang::TypeLayoutReflection`, restricted to the queries the tool makes:
`getKind`, `getResourceShape`, `getResourceAccess`, `getSize(category)`,
`getElementTypeLayout` (`none` models an element layout with no fields) and
the element's fields (`getFieldCount` / `getFieldByIndex`). -/
inductive TypeLayoutReflection : Type where
  | mk
      (kind : TypeKind)
      (resourceShape : Nat)
      (resourceAccess : Nat)
      (size : ParameterCategory → Nat)
      (element : Option TypeLayoutReflection)
      (fields : List (VariableLayoutOf TypeLayoutReflection))

abbrev VariableLayoutReflection : Type := VariableLayoutOf TypeLayoutReflection

def TypeLayoutReflection.kind : TypeLayoutReflection → TypeKind
  | .mk k _ _ _ _ _ => k

def TypeLayoutReflection.resourceShape : TypeLayoutReflection → Nat
  | .mk _ s _ _ _ _ => s

def TypeLayoutReflection.resourceAccess : TypeLayoutReflection → Nat
  | .mk _ _ a _ _ _ => a

def TypeLayoutReflection.size : TypeLayoutReflection → ParameterCategory → Nat
  | .mk _ _ _ sz _ _ => sz

def TypeLayoutReflection.element : TypeLayoutReflection → Option TypeLayoutReflection
  | .mk _ _ _ _ e _ => e

def TypeLayoutReflection.fields :
    TypeLayoutReflection → List (VariableLayoutOf TypeLayoutReflection)
  | .mk _ _ _ _ _ fs => fs

/-- Fields of `getElementTypeLayout()`, i.e. the bindings inside a parameter
block; the source iterates `getFieldByIndex(0..getFieldCount())` on it. -/
def elementFields (t : TypeLayoutReflection) : List VariableLayoutReflection :=
  match t.element with
  | some e => e.fields
  | none => []

/-- The binding-kind half of `ParseDescriptorBindingType`: the source's
`switch (baseShape)` / `switch (access)` block (main.cpp lines 85-129).  The
`default` of the outer switch keeps the initializer
`DescriptorBindingDesc::Type::SampledTexture`. -/
def parseBindingKind (baseShape access : Nat) : Except KEError DescriptorBindingType :=
  if baseShape = SLANG_TEXTURE_1D ∨ baseShape = SLANG_TEXTURE_2D ∨
      baseShape = SLANG_TEXTURE_3D ∨ baseShape = SLANG_TEXTURE_CUBE then
    if access = SLANG_RESOURCE_ACCESS_READ then
      Except.ok DescriptorBindingType.SampledTexture
    else if access = SLANG_RESOURCE_ACCESS_READ_WRITE ∨ access = SLANG_RESOURCE_ACCESS_WRITE then
      Except.ok DescriptorBindingType.StorageReadWriteTexture
    else
      Except.error KEError.UnsupportedAccess
  else if baseShape = SLANG_STRUCTURED_BUFFER ∨ baseShape = SLANG_BYTE_ADDRESS_BUFFER then
    if access = SLANG_RESOURCE_ACCESS_READ then
      Except.ok DescriptorBindingType.StorageReadOnlyBuffer
    else if access = SLANG_RESOURCE_ACCESS_READ_WRITE ∨ access = SLANG_RESOURCE_ACCESS_WRITE then
      Except.ok DescriptorBindingType.StorageReadWriteBuffer
    else
      Except.error KEError.UnsupportedAccess
  else
    Except.ok DescriptorBindingType.SampledTexture

/-- The dimensionality half of `ParseDescriptorBindingType` (main.cpp lines
131-152): entered when `bindingType < StorageReadOnlyBuffer`; its `default`
is `KE_ERROR("Unreachable")`. -/
def parseTextureType (bindingType : DescriptorBindingType) (baseShape shapeFlags : Nat) :
    Except KEError TextureTypes :=
  if bindingType.toNat < DescriptorBindingType.StorageReadOnlyBuffer.toNat then
    if baseShape = SLANG_TEXTURE_1D then
      Except.ok (if shapeFlags.land SLANG_TEXTURE_ARRAY_FLAG ≠ 0 then TextureTypes.Array1D else TextureTypes.Single1D)
    else if baseShape = SLANG_TEXTURE_2D then
      Except.ok (if shapeFlags.land SLANG_TEXTURE_ARRAY_FLAG ≠ 0 then TextureTypes.Array2D else TextureTypes.Single2D)
    else if baseShape = SLANG_TEXTURE_3D then
      Except.ok TextureTypes.Single3D
    else if baseShape = SLANG_TEXTURE_CUBE then
      Except.ok (if shapeFlags.land SLANG_TEXTURE_ARRAY_FLAG ≠ 0 then TextureTypes.ArrayCube else TextureTypes.SingleCube)
    else
      Except.error KEError.Unreachable
  else
    Except.ok TextureTypes.Single2D

/-- The classifier `ParseDescriptorBindingType` (main.cpp lines 67-155). -/
def ParseDescriptorBindingType (r : VariableLayoutReflection) :
    Except KEError (DescriptorBindingType × TextureTypes) :=
  let typeLayout := r.typeLayout
  if typeLayout.kind = TypeKind.ConstantBuffer then
    Except.ok (DescriptorBindingType.ConstantBuffer, TextureTypes.Single2D)
  else if typeLayout.kind = TypeKind.SamplerState then
    Except.ok (DescriptorBindingType.Sampler, TextureTypes.Single2D)
  else
    let resourceShape := typeLayout.resourceShape
    let baseShape := resourceShape.land SLANG_RESOURCE_BASE_SHAPE_MASK
    let shapeFlags := resourceShape.land SLANG_RESOURCE_EXT_SHAPE_MASK
    let access := typeLayout.resourceAccess
    do
      let bindingType ← parseBindingKind baseShape access
      let textureType ← parseTextureType bindingType baseShape shapeFlags
      Except.ok (bindingType, textureType)

/-! ## Reflection flattener (the two passes of `main`, main.cpp lines 185-347) -/

/-- One `slang::EntryPointReflection` as queried by the tool: `getName`,
`getStage`, `getParameterByIndex(0..getParameterCount())`. -/
structure SlangEntryPointReflection : Type where
  name : String
  stage : SlangStage
  parameters : List VariableLayoutReflection

/-- Model of `slang::ShaderReflection` as queried by the tool: top-level parameters
and entry points, in declaration order. -/
structure ShaderReflection : Type where
  parameters : List VariableLayoutReflection
  entryPoints : List SlangEntryPointReflection

/-- The per-entry-point intermediate record `EntryPointReflection` of `main`
(main.cpp lines 206-211). -/
structure EntryPointReflection : Type where
  m_name : String
  m_descriptorSets : List VariableLayoutReflection
  m_pushConstants : List VariableLayoutReflection

/-- The `Modules::ShaderReflection::PushConstantInput` data set by `main`
(name and byte size). -/
structure PushConstantInfo : Type where
  m_name : String
  m_size : Nat
deriving DecidableEq, Repr

/-- One record of the flat descriptor-binding sequence
(`Modules::ShaderReflection::DescriptorInput`). -/
structure DescriptorInput : Type where
  m_name : String
  m_bindingIndex : Nat
  m_type : DescriptorBindingType
  m_textureType : TextureTypes
deriving DecidableEq, Repr

/-- One record of the flat descriptor-set sequence
(`Modules::ShaderReflection::DescriptorSetInput`); the source stores the
member-binding range as a pointer pair into the flat descriptor array,
modelled as the index pair `[m_descriptorsBegin, m_descriptorsEnd)`. -/
structure DescriptorSetInput : Type where
  m_name : String
  m_descriptorsBegin : Nat
  m_descriptorsEnd : Nat
deriving DecidableEq, Repr

/-- One record of the flat entry-point sequence
(`Modules::ShaderReflection::EntryPointInput`); the descriptor-set range is
the source's pointer pair into the flat descriptor-set array, modelled as
the index pair `[m_setsBegin, m_setsEnd)`. -/
structure EntryPointInput : Type where
  m_name : String
  m_stage : ShaderStage
  m_setsBegin : Nat
  m_setsEnd : Nat
  m_pushConstants : Option PushConstantInfo
deriving DecidableEq, Repr

/-- List `mapM` specialised to `Except`, written structurally so that
success can be inverted element by element. -/
def exceptMapM {α β : Type} (f : α → Except KEError β) : List α → Except KEError (List β)
  | [] => Except.ok []
  | x :: xs => do
    let y ← f x
    let ys ← exceptMapM f xs
    Except.ok (y :: ys)

/-- List `foldlM` specialised to `Except`, written structurally so that
success can be inverted element by element. -/
def exceptFoldlM {σ α : Type} (f : σ → α → Except KEError σ) : σ → List α → Except KEError σ
  | s, [] => Except.ok s
  | s, x :: xs => do
    let s' ← f s x
    exceptFoldlM f s' xs

/-- The global scan of `main` (main.cpp lines 192-204): a top-level
parameter of parameter-block kind joins `globalParameterBlocks`; otherwise a
parameter of push-constant category or constant-buffer kind joins
`globalPushConstants`. -/
def collectGlobalsStep
    (acc : List VariableLayoutReflection × List VariableLayoutReflection)
    (parameter : VariableLayoutReflection) :
    List VariableLayoutReflection × List VariableLayoutReflection :=
  if parameter.typeLayout.kind = TypeKind.ParameterBlock then
    (acc.1 ++ [parameter], acc.2)
  else if parameter.category = ParameterCategory.PushConstantBuffer ∨
      parameter.typeLayout.kind = TypeKind.ConstantBuffer then
    (acc.1, acc.2 ++ [parameter])
  else
    acc

def collectGlobals (params : List VariableLayoutReflection) :
    List VariableLayoutReflection × List VariableLayoutReflection :=
  params.foldl collectGlobalsStep ([], [])

/-- The entry-point parameter walk of `main` (main.cpp lines 267-279),
starting from the copies of the global lists: a parameter-block-kind
parameter joins the descriptor sets; otherwise a uniform- or
push-constant-category parameter joins the push-constant candidates. -/
def scanEntryPointStep
    (acc : List VariableLayoutReflection × List VariableLayoutReflection)
    (parameter : VariableLayoutReflection) :
    List VariableLayoutReflection × List VariableLayoutReflection :=
  if parameter.typeLayout.kind = TypeKind.ParameterBlock then
    (acc.1 ++ [parameter], acc.2)
  else if parameter.category = ParameterCategory.Uniform ∨
      parameter.category = ParameterCategory.PushConstantBuffer then
    (acc.1, acc.2 ++ [parameter])
  else
    acc

def scanEntryPointParameters (acc : List VariableLayoutReflection × List VariableLayoutReflection)
    (params : List VariableLayoutReflection) :
    List VariableLayoutReflection × List VariableLayoutReflection :=
  params.foldl scanEntryPointStep acc

/-- The stage table of `main` (main.cpp lines 233-262); `none` is the
`default:` branch (`ErrorCallback("Unsupported stage"); return 1`). -/
def mapStage : SlangStage → Option ShaderStage
  | SlangStage.Vertex => some ShaderStage.Vertex
  | SlangStage.Hull => some ShaderStage.TesselationControl
  | SlangStage.Domain => some ShaderStage.TesselationEvaluation
  | SlangStage.Geometry => some ShaderStage.Geometry
  | SlangStage.Fragment => some ShaderStage.Fragment
  | SlangStage.Compute => some ShaderStage.Compute
  | SlangStage.Mesh => some ShaderStage.Mesh
  | SlangStage.Amplification => some ShaderStage.Task
  | _ => none

/-- The first-pass body of `main` for one entry point (main.cpp lines
224-291): resolve the stage, copy the global lists, walk the entry point's
own parameters, enforce the push-constant cardinality, and record the
resolved `PushConstantInfo` when there is exactly one candidate. -/
def firstPassEntryPoint
    (globalParameterBlocks globalPushConstants : List VariableLayoutReflection)
    (entryPoint : SlangEntryPointReflection) :
    Except KEError (EntryPointReflection × ShaderStage × Option PushConstantInfo) := do
  let stage ← match mapStage entryPoint.stage with
    | some stage => Except.ok stage
    | none => Except.error KEError.UnsupportedStage
  let (descriptorSets, pushConstants) :=
    scanEntryPointParameters (globalParameterBlocks, globalPushConstants) entryPoint.parameters
  if pushConstants.length > 1 then
    Except.error KEError.MultiplePushConstants
  else
    let pcInfo := pushConstants.head?.map
      (fun pc =>
        { m_name := pc.name, m_size := pc.typeLayout.size pc.category : PushConstantInfo })
    Except.ok
      ({ m_name := entryPoint.name, m_descriptorSets := descriptorSets,
         m_pushConstants := pushConstants }, stage, pcInfo)

/-- The whole first pass of `main`: global scan, then every entry point in
tree order. -/
def firstPass (r : ShaderReflection) :
    Except KEError (List (EntryPointReflection × ShaderStage × Option PushConstantInfo)) :=
  let (globalParameterBlocks, globalPushConstants) := collectGlobals r.parameters
  exceptMapM (firstPassEntryPoint globalParameterBlocks globalPushConstants) r.entryPoints

/-- Classifying every field of a descriptor set's element type-layout into
flat `DescriptorInput` records (main.cpp lines 322-331). -/
def buildDescriptors (fields : List VariableLayoutReflection) :
    Except KEError (List DescriptorInput) :=
  exceptMapM
    (fun field => do
      let (bindingType, textureType) ← ParseDescriptorBindingType field
      Except.ok
        { m_name := field.name, m_bindingIndex := field.bindingIndex,
          m_type := bindingType, m_textureType := textureType : DescriptorInput })
    fields

/-- Population of one descriptor set (main.cpp lines 314-339): append the
fields' bindings to the flat descriptor array and one set record whose range
covers exactly the bindings just appended. -/
def populateDescriptorSet (acc : List DescriptorInput × List DescriptorSetInput)
    (descriptorSet : VariableLayoutReflection) :
    Except KEError (List DescriptorInput × List DescriptorSetInput) := do
  let descriptorBegin := acc.1.length
  let newDescriptors ← buildDescriptors (elementFields descriptorSet.typeLayout)
  let descriptors := acc.1 ++ newDescriptors
  let descriptorEnd := descriptors.length
  Except.ok (descriptors,
    acc.2 ++ [{ m_name := descriptorSet.name, m_descriptorsBegin := descriptorBegin,
                m_descriptorsEnd := descriptorEnd : DescriptorSetInput }])

/-- The three flat output sequences of the population pass. -/
structure FlattenState : Type where
  descriptorInputs : List DescriptorInput
  descriptorSetsInputs : List DescriptorSetInput
  entryPointsInputs : List EntryPointInput
deriving DecidableEq, Repr

/-- Population of one entry point (main.cpp lines 304-347).  An entry point
with no descriptor sets gets the empty range.  Otherwise, faithfully to line
312 of the source, `descriptorSetBegin` reads the size of the flat
DESCRIPTOR (binding) array `descriptorInputs`, while the range it starts is
indexed into the descriptor-SET array `descriptorSetsInputs`. -/
def populateEntryPoint (st : FlattenState)
    (entry : EntryPointReflection × ShaderStage × Option PushConstantInfo) :
    Except KEError FlattenState := do
  let (refl, stage, pcInfo) := entry
  if refl.m_descriptorSets.isEmpty then
    Except.ok { st with entryPointsInputs := st.entryPointsInputs ++
      [{ m_name := refl.m_name, m_stage := stage, m_setsBegin := 0, m_setsEnd := 0,
         m_pushConstants := pcInfo : EntryPointInput }] }
  else
    let descriptorSetBegin := st.descriptorInputs.length
    let (descriptors, sets) ←
      exceptFoldlM populateDescriptorSet (st.descriptorInputs, st.descriptorSetsInputs)
        refl.m_descriptorSets
    let descriptorSetEnd := sets.length
    Except.ok
      { descriptorInputs := descriptors, descriptorSetsInputs := sets,
        entryPointsInputs := st.entryPointsInputs ++
          [{ m_name := refl.m_name, m_stage := stage, m_setsBegin := descriptorSetBegin,
             m_setsEnd := descriptorSetEnd, m_pushConstants := pcInfo : EntryPointInput }] }

/-- The whole classify-and-flatten pipeline of `main`: first pass over every
entry point, then the population pass filling the three flat sequences
handed to the blob encoder. -/
def flatten (r : ShaderReflection) : Except KEError FlattenState := do
  let resolved ← firstPass r
  exceptFoldlM populateEntryPoint
    { descriptorInputs := [], descriptorSetsInputs := [], entryPointsInputs := [] } resolved

/-! ## Concrete reflection trees -/

/-- A size query returning 0 for every category (the push-constant size is
irrelevant to the range claims). -/
def szZero : ParameterCategory → Nat := fun _ => 0

/-- Type layout of a sampler binding. -/
def samplerTL : TypeLayoutReflection :=
  TypeLayoutReflection.mk TypeKind.SamplerState 0 0 szZero none []

/-- A sampler field inside a parameter block. -/
def samplerVar (n : String) (idx : Nat) : VariableLayoutReflection :=
  { name := n, bindingIndex := idx, category := ParameterCategory.DescriptorTableSlot,
    typeLayout := samplerTL }

/-- Type layout of a parameter block whose element struct has the given
fields. -/
def blockTL (fields : List VariableLayoutReflection) : TypeLayoutReflection :=
  TypeLayoutReflection.mk TypeKind.ParameterBlock 0 0 szZero
    (some (TypeLayoutReflection.mk TypeKind.Struct 0 0 szZero none fields)) []

/-- A global parameter block `G` with two sampler fields. -/
def gBlock2 : VariableLayoutReflection :=
  { name := "G", bindingIndex := 0, category := ParameterCategory.DescriptorTableSlot,
    typeLayout := blockTL [samplerVar "s0" 0, samplerVar "s1" 1] }

/-- A global parameter block `G` with three sampler fields. -/
def gBlock3 : VariableLayoutReflection :=
  { name := "G", bindingIndex := 0, category := ParameterCategory.DescriptorTableSlot,
    typeLayout := blockTL [samplerVar "s0" 0, samplerVar "s1" 1, samplerVar "s2" 2] }

/-- An entry-point-local parameter block `L` with one sampler field. -/
def lBlock : VariableLayoutReflection :=
  { name := "L", bindingIndex := 1, category := ParameterCategory.DescriptorTableSlot,
    typeLayout := blockTL [samplerVar "t0" 0] }

/-- Two parameterless entry points sharing the two-field global block. -/
def treeTwoEntryPoints : ShaderReflection :=
  { parameters := [gBlock2],
    entryPoints := [{ name := "vs", stage := SlangStage.Vertex, parameters := [] },
                    { name := "fs", stage := SlangStage.Fragment, parameters := [] }] }

/-- Two parameterless entry points sharing the three-field global block. -/
def treeThreeFieldGlobal : ShaderReflection :=
  { parameters := [gBlock3],
    entryPoints := [{ name := "vs", stage := SlangStage.Vertex, parameters := [] },
                    { name := "fs", stage := SlangStage.Fragment, parameters := [] }] }

/-- A two-field global block shared by two entry points, the second of which
also declares its own local block `L`. -/
def treeGlobalPlusLocal : ShaderReflection :=
  { parameters := [gBlock2],
    entryPoints := [{ name := "vs", stage := SlangStage.Vertex, parameters := [] },
                    { name := "fs", stage := SlangStage.Fragment, parameters := [lBlock] }] }

/-! ## Claims C1, C2, C6: the entry-point range slip

Line 312 of main.cpp computes `descriptorSetBegin` from
`descriptorInputs.size()` (the flat BINDING array) and lines 343-346 use it
as the start offset into `descriptorSetsInputs` (the flat SET array).  The
parallel set-level computation (lines 319/333) uses one array for both ends,
so the variable naming and the symmetric structure show the intent; the
flattened outputs below exhibit the slip. -/

/-- Claim C1 (code_bug): on `treeTwoEntryPoints`, entry point `fs` owns the
descriptor set at index 1 of the flat set sequence, so its range should be
`[1, 2)`; the population pass instead records `[2, 2)` because the begin
offset is read from the flat binding array (which already holds the two
bindings of `vs`). -/
theorem flatten_two_entry_points_range_misaligned :
    flatten treeTwoEntryPoints = Except.ok
      { descriptorInputs :=
          [{ m_name := "s0", m_bindingIndex := 0, m_type := DescriptorBindingType.Sampler,
             m_textureType := TextureTypes.Single2D },
           { m_name := "s1", m_bindingIndex := 1, m_type := DescriptorBindingType.Sampler,
             m_textureType := TextureTypes.Single2D },
           { m_name := "s0", m_bindingIndex := 0, m_type := DescriptorBindingType.Sampler,
             m_textureType := TextureTypes.Single2D },
           { m_name := "s1", m_bindingIndex := 1, m_type := DescriptorBindingType.Sampler,
             m_textureType := TextureTypes.Single2D }],
        descriptorSetsInputs :=
          [{ m_name := "G", m_descriptorsBegin := 0, m_descriptorsEnd := 2 },
           { m_name := "G", m_descriptorsBegin := 2, m_descriptorsEnd := 4 }],
        entryPointsInputs :=
          [{ m_name := "vs", m_stage := ShaderStage.Vertex, m_setsBegin := 0, m_setsEnd := 1,
             m_pushConstants := none },
           { m_name := "fs", m_stage := ShaderStage.Fragment, m_setsBegin := 2, m_setsEnd := 2,
             m_pushConstants := none }] } := by
  rfl

/-- Claim C2 (code_bug): on `treeThreeFieldGlobal` the record for entry
point `fs` carries the range `[3, 2)`: `begin = 3 > end = 2`, violating
`0 ≤ begin ≤ end ≤ len` for the descriptor-set sequence of length 2. -/
theorem flatten_range_begin_exceeds_end :
    flatten treeThreeFieldGlobal = Except.ok
      { descriptorInputs :=
          [{ m_name := "s0", m_bindingIndex := 0, m_type := DescriptorBindingType.Sampler,
             m_textureType := TextureTypes.Single2D },
           { m_name := "s1", m_bindingIndex := 1, m_type := DescriptorBindingType.Sampler,
             m_textureType := TextureTypes.Single2D },
           { m_name := "s2", m_bindingIndex := 2, m_type := DescriptorBindingType.Sampler,
             m_textureType := TextureTypes.Single2D },
           { m_name := "s0", m_bindingIndex := 0, m_type := DescriptorBindingType.Sampler,
             m_textureType := TextureTypes.Single2D },
           { m_name := "s1", m_bindingIndex := 1, m_type := DescriptorBindingType.Sampler,
             m_textureType := TextureTypes.Single2D },
           { m_name := "s2", m_bindingIndex := 2, m_type := DescriptorBindingType.Sampler,
             m_textureType := TextureTypes.Single2D }],
        descriptorSetsInputs :=
          [{ m_name := "G", m_descriptorsBegin := 0, m_descriptorsEnd := 3 },
           { m_name := "G", m_descriptorsBegin := 3, m_descriptorsEnd := 6 }],
        entryPointsInputs :=
          [{ m_name := "vs", m_stage := ShaderStage.Vertex, m_setsBegin := 0, m_setsEnd := 1,
             m_pushConstants := none },
           { m_name := "fs", m_stage := ShaderStage.Fragment, m_setsBegin := 3, m_setsEnd := 2,
             m_pushConstants := none }] } := by
  rfl

/-- Claim C6 (code_bug): on `treeGlobalPlusLocal` the `fs` record's range is
`[2, 3)`, which selects only the local set `L` (index 2); the per-entry-point
copy of the global set `G` sits at index 1 of the flat set sequence, outside
`fs`'s recorded range, so the global block does not appear in the
descriptor-set range of every entry point. -/
theorem flatten_global_set_missing_from_second_range :
    flatten treeGlobalPlusLocal = Except.ok
      { descriptorInputs :=
          [{ m_name := "s0", m_bindingIndex := 0, m_type := DescriptorBindingType.Sampler,
             m_textureType := TextureTypes.Single2D },
           { m_name := "s1", m_bindingIndex := 1, m_type := DescriptorBindingType.Sampler,
             m_textureType := TextureTypes.Single2D },
           { m_name := "s0", m_bindingIndex := 0, m_type := DescriptorBindingType.Sampler,
             m_textureType := TextureTypes.Single2D },
           { m_name := "s1", m_bindingIndex := 1, m_type := DescriptorBindingType.Sampler,
             m_textureType := TextureTypes.Single2D },
           { m_name := "t0", m_bindingIndex := 0, m_type := DescriptorBindingType.Sampler,
             m_textureType := TextureTypes.Single2D }],
        descriptorSetsInputs :=
          [{ m_name := "G", m_descriptorsBegin := 0, m_descriptorsEnd := 2 },
           { m_name := "G", m_descriptorsBegin := 2, m_descriptorsEnd := 4 },
           { m_name := "L", m_descriptorsBegin := 4, m_descriptorsEnd := 5 }],
        entryPointsInputs :=
          [{ m_name := "vs", m_stage := ShaderStage.Vertex, m_setsBegin := 0, m_setsEnd := 1,
             m_pushConstants := none },
           { m_name := "fs", m_stage := ShaderStage.Fragment, m_setsBegin := 2, m_setsEnd := 3,
             m_pushConstants := none }] } := by
  rfl

/-! ## Inversion helpers for the Except monad -/

theorem except_bind_ok {α β : Type} {m : Except KEError α} {k : α → Except KEError β} {b : β}
    (h : (m >>= k) = Except.ok b) : ∃ a, m = Except.ok a ∧ k a = Except.ok b := by
  cases m with
  | ok a => exact ⟨a, rfl, h⟩
  | error e => exact absurd h (by simp [Bind.bind, Except.bind])

theorem exceptMapM_ok_forall {α β : Type} (f : α → Except KEError β) :
    ∀ (l : List α) (ys : List β), exceptMapM f l = Except.ok ys →
      ∀ x ∈ l, ∃ y, f x = Except.ok y := by
  intro l
  induction l with
  | nil => simp
  | cons a as ih =>
    intro ys h x hx
    simp only [exceptMapM] at h
    obtain ⟨y, hy, h⟩ := except_bind_ok h
    obtain ⟨ys', hys, -⟩ := except_bind_ok h
    cases hx with
    | head => exact ⟨y, hy⟩
    | tail _ hx => exact ih ys' hys x hx

theorem exceptFoldlM_ok_forall {σ α : Type} (f : σ → α → Except KEError σ) :
    ∀ (l : List α) (s s' : σ), exceptFoldlM f s l = Except.ok s' →
      ∀ x ∈ l, ∃ t t', f t x = Except.ok t' := by
  intro l
  induction l with
  | nil => simp
  | cons a as ih =>
    intro s s' h x hx
    simp only [exceptFoldlM] at h
    obtain ⟨s₁, hs₁, h⟩ := except_bind_ok h
    cases hx with
    | head => exact ⟨s, s₁, hs₁⟩
    | tail _ hx => exact ih s₁ s' h x hx

/-! ## Classifier facts -/

theorem parseBindingKind_ok_cases (b a : Nat) (t : DescriptorBindingType)
    (h : parseBindingKind b a = Except.ok t) :
    t = DescriptorBindingType.SampledTexture ∨
      t = DescriptorBindingType.StorageReadWriteTexture ∨
      t = DescriptorBindingType.StorageReadOnlyBuffer ∨
      t = DescriptorBindingType.StorageReadWriteBuffer := by
  unfold parseBindingKind at h
  split_ifs at h <;> simp_all

/-- Claim C9: the classifier never produces `StorageReadOnlyTexture`: every
successful run of `ParseDescriptorBindingType` returns one of the six other
binding kinds (read-only textures map to `SampledTexture`), so the declared
enum value is dead in the classifier's output. -/
theorem parse_never_storageReadOnlyTexture (r : VariableLayoutReflection)
    (res : DescriptorBindingType × TextureTypes)
    (h : ParseDescriptorBindingType r = Except.ok res) :
    res.1 ≠ DescriptorBindingType.StorageReadOnlyTexture := by
  simp only [ParseDescriptorBindingType] at h
  split_ifs at h
  · cases h
    simp
  · cases h
    simp
  · obtain ⟨bt, hbt, h⟩ := except_bind_ok h
    obtain ⟨tt, htt, h⟩ := except_bind_ok h
    simp only [Except.ok.injEq] at h
    subst h
    rcases parseBindingKind_ok_cases _ _ _ hbt with h | h | h | h <;> simp [h]

/-- Claim C9 witness: instantiated at a sampler-state layout. -/
theorem parse_never_storageReadOnlyTexture_witness :
    (DescriptorBindingType.Sampler, TextureTypes.Single2D).1 ≠
      DescriptorBindingType.StorageReadOnlyTexture :=
  parse_never_storageReadOnlyTexture (samplerVar "s" 0)
    (DescriptorBindingType.Sampler, TextureTypes.Single2D) rfl

/-- A resource whose base shape is `SLANG_TEXTURE_BUFFER` (5), a shape the
classifier's taxonomy does not model, with read-only access. -/
def texBufferVar : VariableLayoutReflection :=
  { name := "tb", bindingIndex := 0, category := ParameterCategory.DescriptorTableSlot,
    typeLayout := TypeLayoutReflection.mk TypeKind.Resource SLANG_TEXTURE_BUFFER
      SLANG_RESOURCE_ACCESS_READ szZero none [] }

/-- Claim C3 counterexample: on the unmodeled base shape
`SLANG_TEXTURE_BUFFER`, the classifier does NOT return
`(SampledTexture, Single2D)` without failing — the defaulted kind
`SampledTexture` passes the texture-likeness test, control enters the
dimensionality switch, and its defensive `Unreachable` branch is reached. -/
theorem parse_textureBuffer_hits_unreachable :
    ParseDescriptorBindingType texBufferVar = Except.error KEError.Unreachable ∧
      ParseDescriptorBindingType texBufferVar ≠
        Except.ok (DescriptorBindingType.SampledTexture, TextureTypes.Single2D) := by
  refine ⟨rfl, fun hcontra => ?_⟩
  rw [show ParseDescriptorBindingType texBufferVar = Except.error KEError.Unreachable from rfl]
    at hcontra
  exact Except.noConfusion hcontra

/-- Claim C3 amended: for every type-layout whose kind is neither
constant-buffer nor sampler-state and whose base resource shape is none of
the modeled 1D/2D/3D/Cube texture or structured/byte-address buffer shapes,
the binding kind defaults to `SampledTexture`, which is texture-like, so
dimensionality derivation runs and its defensive `Unreachable` branch is
always reached: classification fails with `Unreachable` instead of returning
the `(SampledTexture, Single2D)` fallback. -/
theorem parse_unmodeled_shape_unreachable (r : VariableLayoutReflection)
    (h1 : r.typeLayout.kind ≠ TypeKind.ConstantBuffer)
    (h2 : r.typeLayout.kind ≠ TypeKind.SamplerState)
    (h3 : r.typeLayout.resourceShape.land SLANG_RESOURCE_BASE_SHAPE_MASK ≠ SLANG_TEXTURE_1D)
    (h4 : r.typeLayout.resourceShape.land SLANG_RESOURCE_BASE_SHAPE_MASK ≠ SLANG_TEXTURE_2D)
    (h5 : r.typeLayout.resourceShape.land SLANG_RESOURCE_BASE_SHAPE_MASK ≠ SLANG_TEXTURE_3D)
    (h6 : r.typeLayout.resourceShape.land SLANG_RESOURCE_BASE_SHAPE_MASK ≠ SLANG_TEXTURE_CUBE)
    (h7 : r.typeLayout.resourceShape.land SLANG_RESOURCE_BASE_SHAPE_MASK ≠ SLANG_STRUCTURED_BUFFER)
    (h8 : r.typeLayout.resourceShape.land SLANG_RESOURCE_BASE_SHAPE_MASK ≠ SLANG_BYTE_ADDRESS_BUFFER) :
    ParseDescriptorBindingType r = Except.error KEError.Unreachable := by
  simp only [ParseDescriptorBindingType]
  rw [if_neg h1, if_neg h2]
  simp [parseBindingKind, parseTextureType, h3, h4, h5, h6, h7, h8,
    DescriptorBindingType.toNat, Bind.bind, Except.bind]

/-- Claim C3 amended-theorem witness: instantiated at a resource with base
shape `SLANG_RESOURCE_UNKNOWN` (8). -/
theorem parse_unmodeled_shape_unreachable_witness :
    ParseDescriptorBindingType
      { name := "u", bindingIndex := 0, category := ParameterCategory.DescriptorTableSlot,
        typeLayout := TypeLayoutReflection.mk TypeKind.Resource 8 0 szZero none [] } =
      Except.error KEError.Unreachable :=
  parse_unmodeled_shape_unreachable
    { name := "u", bindingIndex := 0, category := ParameterCategory.DescriptorTableSlot,
      typeLayout := TypeLayoutReflection.mk TypeKind.Resource 8 0 szZero none [] }
    (by decide) (by decide) (by decide) (by decide) (by decide) (by decide) (by decide)
    (by decide)

theorem buildDescriptors_ok_forall (fields : List VariableLayoutReflection)
    (bs : List DescriptorInput) (h : buildDescriptors fields = Except.ok bs) :
    ∀ f ∈ fields, ∃ res, ParseDescriptorBindingType f = Except.ok res := by
  intro f hf
  obtain ⟨y, hy⟩ := exceptMapM_ok_forall _ fields bs h f hf
  obtain ⟨res, hres, -⟩ := except_bind_ok hy
  exact ⟨res, hres⟩

theorem populateDescriptorSet_ok (acc : List DescriptorInput × List DescriptorSetInput)
    (ds : VariableLayoutReflection) (out : List DescriptorInput × List DescriptorSetInput)
    (h : populateDescriptorSet acc ds = Except.ok out) :
    ∃ bs, buildDescriptors (elementFields ds.typeLayout) = Except.ok bs := by
  simp only [populateDescriptorSet] at h
  obtain ⟨bs, hbs, -⟩ := except_bind_ok h
  exact ⟨bs, hbs⟩

theorem populateEntryPoint_ok (st : FlattenState)
    (e : EntryPointReflection × ShaderStage × Option PushConstantInfo) (out : FlattenState)
    (h : populateEntryPoint st e = Except.ok out) :
    ∀ ds ∈ e.1.m_descriptorSets, ∃ bs,
      buildDescriptors (elementFields ds.typeLayout) = Except.ok bs := by
  obtain ⟨refl, stage, pc⟩ := e
  intro ds hds
  simp only [populateEntryPoint] at h
  split at h
  · rename_i hempty
    rw [List.isEmpty_iff] at hempty
    rw [hempty] at hds
    cases hds
  · obtain ⟨pair, hpair, -⟩ := except_bind_ok h
    obtain ⟨t, t', hts⟩ := exceptFoldlM_ok_forall _ _ _ _ hpair ds hds
    exact populateDescriptorSet_ok t ds t' hts

/-- Claim C5: an access mode outside {read, write, read-write} on a modeled
texture or buffer shape always fails the classifier with
`UnsupportedAccess` (first conjunct); and the failure is fatal for the whole
run — whenever `flatten` succeeds, every field of every descriptor set of
every entry point was classified successfully, so no binding is ever
skipped (second conjunct). -/
theorem unsupported_access_fatal :
    (∀ r : VariableLayoutReflection,
      r.typeLayout.kind ≠ TypeKind.ConstantBuffer →
      r.typeLayout.kind ≠ TypeKind.SamplerState →
      (r.typeLayout.resourceShape.land SLANG_RESOURCE_BASE_SHAPE_MASK = SLANG_TEXTURE_1D ∨
        r.typeLayout.resourceShape.land SLANG_RESOURCE_BASE_SHAPE_MASK = SLANG_TEXTURE_2D ∨
        r.typeLayout.resourceShape.land SLANG_RESOURCE_BASE_SHAPE_MASK = SLANG_TEXTURE_3D ∨
        r.typeLayout.resourceShape.land SLANG_RESOURCE_BASE_SHAPE_MASK = SLANG_TEXTURE_CUBE ∨
        r.typeLayout.resourceShape.land SLANG_RESOURCE_BASE_SHAPE_MASK = SLANG_STRUCTURED_BUFFER ∨
        r.typeLayout.resourceShape.land SLANG_RESOURCE_BASE_SHAPE_MASK = SLANG_BYTE_ADDRESS_BUFFER) →
      r.typeLayout.resourceAccess ≠ SLANG_RESOURCE_ACCESS_READ →
      r.typeLayout.resourceAccess ≠ SLANG_RESOURCE_ACCESS_READ_WRITE →
      r.typeLayout.resourceAccess ≠ SLANG_RESOURCE_ACCESS_WRITE →
      ParseDescriptorBindingType r = Except.error KEError.UnsupportedAccess) ∧
    (∀ (r : ShaderReflection) (st : FlattenState)
        (l : List (EntryPointReflection × ShaderStage × Option PushConstantInfo)),
      flatten r = Except.ok st → firstPass r = Except.ok l →
      ∀ e ∈ l, ∀ ds ∈ e.1.m_descriptorSets, ∀ f ∈ elementFields ds.typeLayout,
        ∃ res, ParseDescriptorBindingType f = Except.ok res) := by
  constructor
  · intro r h1 h2 hbase ha1 ha2 ha3
    simp only [ParseDescriptorBindingType]
    rw [if_neg h1, if_neg h2]
    rcases hbase with hb | hb | hb | hb | hb | hb <;>
      simp [parseBindingKind, hb, ha1, ha2, ha3, Bind.bind, Except.bind]
  · intro r st l hflat hfp e he ds hds f hf
    simp only [flatten] at hflat
    rw [hfp] at hflat
    simp only [Bind.bind, Except.bind] at hflat
    obtain ⟨t, t', ht⟩ := exceptFoldlM_ok_forall _ _ _ _ hflat e he
    obtain ⟨bs, hbs⟩ := populateEntryPoint_ok t e t' ht ds hds
    exact buildDescriptors_ok_forall _ bs hbs f hf

/-- A read-write 2D texture with the invalid access value
`SLANG_RESOURCE_ACCESS_NONE`. -/
def badAccessVar : VariableLayoutReflection :=
  { name := "bad", bindingIndex := 0, category := ParameterCategory.DescriptorTableSlot,
    typeLayout := TypeLayoutReflection.mk TypeKind.Resource SLANG_TEXTURE_2D
      SLANG_RESOURCE_ACCESS_NONE szZero none [] }

/-- Claim C5 witness: the classifier conjunct instantiated at a 2D texture
with access `SLANG_RESOURCE_ACCESS_NONE`. -/
theorem unsupported_access_fatal_witness :
    ParseDescriptorBindingType badAccessVar = Except.error KEError.UnsupportedAccess :=
  unsupported_access_fatal.1 badAccessVar (by decide) (by decide)
    (Or.inr (Or.inl (by decide))) (by decide) (by decide) (by decide)

/-- Claim C4: on every modeled (base shape, access) pair the classifier
succeeds with exactly the specified binding kind, and for texture-like
results the dimensionality comes from the base shape combined with the
`SLANG_TEXTURE_ARRAY_FLAG` bit: 1D and 2D and Cube have single/array
variants, 3D is always `Single3D`, and buffer kinds keep the `Single2D`
default. -/
theorem parse_modeled_shapes_total :
    (∀ r : VariableLayoutReflection,
      r.typeLayout.kind ≠ TypeKind.ConstantBuffer →
      r.typeLayout.kind ≠ TypeKind.SamplerState →
      r.typeLayout.resourceShape.land SLANG_RESOURCE_BASE_SHAPE_MASK = SLANG_TEXTURE_1D →
      (r.typeLayout.resourceAccess = SLANG_RESOURCE_ACCESS_READ →
        ParseDescriptorBindingType r = Except.ok (DescriptorBindingType.SampledTexture,
          if (r.typeLayout.resourceShape.land SLANG_RESOURCE_EXT_SHAPE_MASK).land
              SLANG_TEXTURE_ARRAY_FLAG ≠ 0
          then TextureTypes.Array1D else TextureTypes.Single1D)) ∧
      (r.typeLayout.resourceAccess = SLANG_RESOURCE_ACCESS_READ_WRITE ∨
          r.typeLayout.resourceAccess = SLANG_RESOURCE_ACCESS_WRITE →
        ParseDescriptorBindingType r = Except.ok (DescriptorBindingType.StorageReadWriteTexture,
          if (r.typeLayout.resourceShape.land SLANG_RESOURCE_EXT_SHAPE_MASK).land
              SLANG_TEXTURE_ARRAY_FLAG ≠ 0
          then TextureTypes.Array1D else TextureTypes.Single1D))) ∧
    (∀ r : VariableLayoutReflection,
      r.typeLayout.kind ≠ TypeKind.ConstantBuffer →
      r.typeLayout.kind ≠ TypeKind.SamplerState →
      r.typeLayout.resourceShape.land SLANG_RESOURCE_BASE_SHAPE_MASK = SLANG_TEXTURE_2D →
      (r.typeLayout.resourceAccess = SLANG_RESOURCE_ACCESS_READ →
        ParseDescriptorBindingType r = Except.ok (DescriptorBindingType.SampledTexture,
          if (r.typeLayout.resourceShape.land SLANG_RESOURCE_EXT_SHAPE_MASK).land
              SLANG_TEXTURE_ARRAY_FLAG ≠ 0
          then TextureTypes.Array2D else TextureTypes.Single2D)) ∧
      (r.typeLayout.resourceAccess = SLANG_RESOURCE_ACCESS_READ_WRITE ∨
          r.typeLayout.resourceAccess = SLANG_RESOURCE_ACCESS_WRITE →
        ParseDescriptorBindingType r = Except.ok (DescriptorBindingType.StorageReadWriteTexture,
          if (r.typeLayout.resourceShape.land SLANG_RESOURCE_EXT_SHAPE_MASK).land
              SLANG_TEXTURE_ARRAY_FLAG ≠ 0
          then TextureTypes.Array2D else TextureTypes.Single2D))) ∧
    (∀ r : VariableLayoutReflection,
      r.typeLayout.kind ≠ TypeKind.ConstantBuffer →
      r.typeLayout.kind ≠ TypeKind.SamplerState →
      r.typeLayout.resourceShape.land SLANG_RESOURCE_BASE_SHAPE_MASK = SLANG_TEXTURE_3D →
      (r.typeLayout.resourceAccess = SLANG_RESOURCE_ACCESS_READ →
        ParseDescriptorBindingType r =
          Except.ok (DescriptorBindingType.SampledTexture, TextureTypes.Single3D)) ∧
      (r.typeLayout.resourceAccess = SLANG_RESOURCE_ACCESS_READ_WRITE ∨
          r.typeLayout.resourceAccess = SLANG_RESOURCE_ACCESS_WRITE →
        ParseDescriptorBindingType r =
          Except.ok (DescriptorBindingType.StorageReadWriteTexture, TextureTypes.Single3D))) ∧
    (∀ r : VariableLayoutReflection,
      r.typeLayout.kind ≠ TypeKind.ConstantBuffer →
      r.typeLayout.kind ≠ TypeKind.SamplerState →
      r.typeLayout.resourceShape.land SLANG_RESOURCE_BASE_SHAPE_MASK = SLANG_TEXTURE_CUBE →
      (r.typeLayout.resourceAccess = SLANG_RESOURCE_ACCESS_READ →
        ParseDescriptorBindingType r = Except.ok (DescriptorBindingType.SampledTexture,
          if (r.typeLayout.resourceShape.land SLANG_RESOURCE_EXT_SHAPE_MASK).land
              SLANG_TEXTURE_ARRAY_FLAG ≠ 0
          then TextureTypes.ArrayCube else TextureTypes.SingleCube)) ∧
      (r.typeLayout.resourceAccess = SLANG_RESOURCE_ACCESS_READ_WRITE ∨
          r.typeLayout.resourceAccess = SLANG_RESOURCE_ACCESS_WRITE →
        ParseDescriptorBindingType r = Except.ok (DescriptorBindingType.StorageReadWriteTexture,
          if (r.typeLayout.resourceShape.land SLANG_RESOURCE_EXT_SHAPE_MASK).land
              SLANG_TEXTURE_ARRAY_FLAG ≠ 0
          then TextureTypes.ArrayCube else TextureTypes.SingleCube))) ∧
    (∀ r : VariableLayoutReflection,
      r.typeLayout.kind ≠ TypeKind.ConstantBuffer →
      r.typeLayout.kind ≠ TypeKind.SamplerState →
      r.typeLayout.resourceShape.land SLANG_RESOURCE_BASE_SHAPE_MASK = SLANG_STRUCTURED_BUFFER →
      (r.typeLayout.resourceAccess = SLANG_RESOURCE_ACCESS_READ →
        ParseDescriptorBindingType r =
          Except.ok (DescriptorBindingType.StorageReadOnlyBuffer, TextureTypes.Single2D)) ∧
      (r.typeLayout.resourceAccess = SLANG_RESOURCE_ACCESS_READ_WRITE ∨
          r.typeLayout.resourceAccess = SLANG_RESOURCE_ACCESS_WRITE →
        ParseDescriptorBindingType r =
          Except.ok (DescriptorBindingType.StorageReadWriteBuffer, TextureTypes.Single2D))) ∧
    (∀ r : VariableLayoutReflection,
      r.typeLayout.kind ≠ TypeKind.ConstantBuffer →
      r.typeLayout.kind ≠ TypeKind.SamplerState →
      r.typeLayout.resourceShape.land SLANG_RESOURCE_BASE_SHAPE_MASK = SLANG_BYTE_ADDRESS_BUFFER →
      (r.typeLayout.resourceAccess = SLANG_RESOURCE_ACCESS_READ →
        ParseDescriptorBindingType r =
          Except.ok (DescriptorBindingType.StorageReadOnlyBuffer, TextureTypes.Single2D)) ∧
      (r.typeLayout.resourceAccess = SLANG_RESOURCE_ACCESS_READ_WRITE ∨
          r.typeLayout.resourceAccess = SLANG_RESOURCE_ACCESS_WRITE →
        ParseDescriptorBindingType r =
          Except.ok (DescriptorBindingType.StorageReadWriteBuffer, TextureTypes.Single2D))) := by
  refine ⟨?_, ?_, ?_, ?_, ?_, ?_⟩ <;>
    (intro r h1 h2 hbase
     constructor <;> intro hacc) <;>
    [skip; rcases hacc with hacc | hacc; skip; rcases hacc with hacc | hacc;
     skip; rcases hacc with hacc | hacc; skip; rcases hacc with hacc | hacc;
     skip; rcases hacc with hacc | hacc; skip; rcases hacc with hacc | hacc] <;>
    (simp only [ParseDescriptorBindingType]
     rw [if_neg h1, if_neg h2]
     simp [parseBindingKind, parseTextureType, hbase, hacc,
       DescriptorBindingType.toNat, Bind.bind, Except.bind, SLANG_TEXTURE_1D,
       SLANG_TEXTURE_2D, SLANG_TEXTURE_3D, SLANG_TEXTURE_CUBE,
       SLANG_STRUCTURED_BUFFER, SLANG_BYTE_ADDRESS_BUFFER,
       SLANG_RESOURCE_ACCESS_READ, SLANG_RESOURCE_ACCESS_READ_WRITE,
       SLANG_RESOURCE_ACCESS_WRITE])

/-- A read-only 2D texture array (`resourceShape = SLANG_TEXTURE_2D` with
the `SLANG_TEXTURE_ARRAY_FLAG` bit). -/
def tex2DArrayVar : VariableLayoutReflection :=
  { name := "t2a", bindingIndex := 0, category := ParameterCategory.DescriptorTableSlot,
    typeLayout := TypeLayoutReflection.mk TypeKind.Resource 0x42
      SLANG_RESOURCE_ACCESS_READ szZero none [] }

/-- Claim C4 witness: the 2D conjunct instantiated at a read-only 2D texture
array. -/
theorem parse_modeled_shapes_total_witness :
    ParseDescriptorBindingType tex2DArrayVar =
      Except.ok (DescriptorBindingType.SampledTexture, TextureTypes.Array2D) := by
  rw [(parse_modeled_shapes_total.2.1 tex2DArrayVar (by decide) (by decide) (by decide)).1
    (by decide)]
  rfl

/-! ## First-pass facts: stage mapping and push-constant cardinality -/

/-- Claim C7: for an entry point with a mappable stage, the first pass fails
with `MultiplePushConstants` when the combined candidate list (globals plus
own uniform/push-constant parameters) has more than one element, resolves a
`PushConstantInfo` carrying the candidate's name and its byte size at its
binding category when there is exactly one, and resolves no
`PushConstantInfo` when there is none. -/
theorem pushConstant_cardinality
    (gPB gPC : List VariableLayoutReflection) (ep : SlangEntryPointReflection)
    (stage0 : ShaderStage) (hstage : mapStage ep.stage = some stage0) :
    ((scanEntryPointParameters (gPB, gPC) ep.parameters).2.length > 1 →
      firstPassEntryPoint gPB gPC ep = Except.error KEError.MultiplePushConstants) ∧
    (∀ c : VariableLayoutReflection,
      (scanEntryPointParameters (gPB, gPC) ep.parameters).2 = [c] →
      firstPassEntryPoint gPB gPC ep =
        Except.ok
          ({ m_name := ep.name,
             m_descriptorSets := (scanEntryPointParameters (gPB, gPC) ep.parameters).1,
             m_pushConstants := [c] }, stage0,
            some { m_name := c.name, m_size := c.typeLayout.size c.category })) ∧
    ((scanEntryPointParameters (gPB, gPC) ep.parameters).2 = [] →
      firstPassEntryPoint gPB gPC ep =
        Except.ok
          ({ m_name := ep.name,
             m_descriptorSets := (scanEntryPointParameters (gPB, gPC) ep.parameters).1,
             m_pushConstants := [] }, stage0, none)) := by
  rcases hscan : scanEntryPointParameters (gPB, gPC) ep.parameters with ⟨sets, pcs⟩
  refine ⟨?_, ?_, ?_⟩
  · intro hlen
    simp only at hlen
    simp [firstPassEntryPoint, hstage, hscan, Bind.bind, Except.bind, hlen]
  · intro c hc
    simp only at hc
    subst hc
    simp [firstPassEntryPoint, hstage, hscan, Bind.bind, Except.bind]
  · intro hnil
    simp only at hnil
    subst hnil
    simp [firstPassEntryPoint, hstage, hscan, Bind.bind, Except.bind]

/-- A push-constant-category constant-buffer parameter of byte size 16. -/
def pcVar (n : String) : VariableLayoutReflection :=
  { name := n, bindingIndex := 0, category := ParameterCategory.PushConstantBuffer,
    typeLayout := TypeLayoutReflection.mk TypeKind.ConstantBuffer 0 0 (fun _ => 16) none [] }

/-- Claim C7 witness: two global push-constant candidates and a parameterless
fragment entry point fail with `MultiplePushConstants`. -/
theorem pushConstant_cardinality_witness :
    firstPassEntryPoint [] [pcVar "a", pcVar "b"]
      { name := "main", stage := SlangStage.Fragment, parameters := [] } =
      Except.error KEError.MultiplePushConstants :=
  (pushConstant_cardinality [] [pcVar "a", pcVar "b"]
    { name := "main", stage := SlangStage.Fragment, parameters := [] }
    ShaderStage.Fragment rfl).1 (by decide)

/-- Claim C8: an entry point whose stage has no mapping in the fixed table
fails the first pass with `UnsupportedStage` before its parameters are even
considered (first conjunct); and a reflection tree containing such an entry
point can never produce a flattened output (second conjunct). -/
theorem unsupported_stage_fatal :
    (∀ (gPB gPC : List VariableLayoutReflection) (ep : SlangEntryPointReflection),
      mapStage ep.stage = none →
      firstPassEntryPoint gPB gPC ep = Except.error KEError.UnsupportedStage) ∧
    (∀ (r : ShaderReflection) (ep : SlangEntryPointReflection),
      ep ∈ r.entryPoints → mapStage ep.stage = none →
      ∀ st : FlattenState, flatten r ≠ Except.ok st) := by
  have part1 : ∀ (gPB gPC : List VariableLayoutReflection) (ep : SlangEntryPointReflection),
      mapStage ep.stage = none →
      firstPassEntryPoint gPB gPC ep = Except.error KEError.UnsupportedStage := by
    intro gPB gPC ep hnone
    simp [firstPassEntryPoint, hnone, Bind.bind, Except.bind]
  refine ⟨part1, ?_⟩
  intro r ep hmem hnone st hok
  simp only [flatten] at hok
  obtain ⟨l, hfp, -⟩ := except_bind_ok hok
  rcases hg : collectGlobals r.parameters with ⟨g1, g2⟩
  simp only [firstPass, hg] at hfp
  obtain ⟨y, hy⟩ := exceptMapM_ok_forall _ r.entryPoints l hfp ep hmem
  rw [part1 g1 g2 ep hnone] at hy
  exact Except.noConfusion hy

/-- A reflection tree whose sole entry point has the unmapped stage
`SLANG_STAGE_RAY_GENERATION`. -/
def treeBadStage : ShaderReflection :=
  { parameters := [],
    entryPoints := [{ name := "rg", stage := SlangStage.RayGeneration, parameters := [] }] }

/-- Claim C8 witness: the run-level conjunct instantiated on
`treeBadStage`. -/
theorem unsupported_stage_fatal_witness :
    flatten treeBadStage ≠ Except.ok
      { descriptorInputs := [], descriptorSetsInputs := [], entryPointsInputs := [] } :=
  unsupported_stage_fatal.2 treeBadStage
    { name := "rg", stage := SlangStage.RayGeneration, parameters := [] }
    (List.mem_singleton.mpr rfl) rfl
    { descriptorInputs := [], descriptorSetsInputs := [], entryPointsInputs := [] }

/-- The entry-point parameter walk only appends to the push-constant
candidate list, so the list never gets shorter than the global prefix it
starts from. -/
theorem scanEntryPointParameters_snd_length (ps : List VariableLayoutReflection) :
    ∀ acc : List VariableLayoutReflection × List VariableLayoutReflection,
      acc.2.length ≤ (scanEntryPointParameters acc ps).2.length := by
  induction ps with
  | nil => intro acc; simp [scanEntryPointParameters]
  | cons x xs ih =>
    intro acc
    have hstep : acc.2.length ≤ (scanEntryPointStep acc x).2.length := by
      simp only [scanEntryPointStep]
      split_ifs <;> simp
    have hcons : scanEntryPointParameters acc (x :: xs) =
        scanEntryPointParameters (scanEntryPointStep acc x) xs := by
      simp [scanEntryPointParameters]
    rw [hcons]
    exact le_trans hstep (ih (scanEntryPointStep acc x))

/-- Two global constant-buffer parameters (both push-constant candidates)
and a single entry point whose stage has no mapping. -/
def treeTwoGlobalsBadStage : ShaderReflection :=
  { parameters := [pcVar "a", pcVar "b"],
    entryPoints := [{ name := "rg", stage := SlangStage.RayGeneration, parameters := [] }] }

/-- Claim C10 counterexample: `treeTwoGlobalsBadStage` has two global
push-constant candidates and one entry point, yet the run fails with
`UnsupportedStage`, not `MultiplePushConstants`, because the stage table is
consulted before the cardinality check. -/
theorem two_global_pushConstants_bad_stage :
    (collectGlobals treeTwoGlobalsBadStage.parameters).2.length = 2 ∧
      treeTwoGlobalsBadStage.entryPoints.length = 1 ∧
      flatten treeTwoGlobalsBadStage = Except.error KEError.UnsupportedStage ∧
      flatten treeTwoGlobalsBadStage ≠ Except.error KEError.MultiplePushConstants := by
  refine ⟨by decide, rfl, rfl, fun hcontra => ?_⟩
  rw [show flatten treeTwoGlobalsBadStage = Except.error KEError.UnsupportedStage from rfl]
    at hcontra
  simp at hcontra

/-- Claim C10 amended: if the global scan collects at least two global
push-constant candidates and the first entry point's stage is mappable, the
run always fails with `MultiplePushConstants`, regardless of the entry
points' own parameters, because the global candidate list is copied into
the entry point's candidate list before the cardinality check. -/
theorem two_global_pushConstants_always_fatal
    (r : ShaderReflection) (ep0 : SlangEntryPointReflection)
    (rest : List SlangEntryPointReflection) (heps : r.entryPoints = ep0 :: rest)
    (stage0 : ShaderStage) (hstage : mapStage ep0.stage = some stage0)
    (hglob : 2 ≤ (collectGlobals r.parameters).2.length) :
    flatten r = Except.error KEError.MultiplePushConstants := by
  rcases hg : collectGlobals r.parameters with ⟨g1, g2⟩
  rw [hg] at hglob
  simp only at hglob
  have hep0 : firstPassEntryPoint g1 g2 ep0 = Except.error KEError.MultiplePushConstants := by
    rcases hscan : scanEntryPointParameters (g1, g2) ep0.parameters with ⟨sets, pcs⟩
    have hlen : pcs.length > 1 := by
      have hmono := scanEntryPointParameters_snd_length ep0.parameters (g1, g2)
      rw [hscan] at hmono
      simp only at hmono
      omega
    simp [firstPassEntryPoint, hstage, hscan, Bind.bind, Except.bind, hlen]
  have hfp : firstPass r = Except.error KEError.MultiplePushConstants := by
    simp [firstPass, hg, heps, exceptMapM, hep0, Bind.bind, Except.bind]
  simp [flatten, hfp, Bind.bind, Except.bind]

/-- Two global push-constant candidates and one fragment entry point. -/
def treeTwoGlobalsFragment : ShaderReflection :=
  { parameters := [pcVar "a", pcVar "b"],
    entryPoints := [{ name := "main", stage := SlangStage.Fragment, parameters := [] }] }

/-- Claim C10 amended-theorem witness: instantiated on
`treeTwoGlobalsFragment`. -/
theorem two_global_pushConstants_always_fatal_witness :
    flatten treeTwoGlobalsFragment = Except.error KEError.MultiplePushConstants :=
  two_global_pushConstants_always_fatal treeTwoGlobalsFragment
    { name := "main", stage := SlangStage.Fragment, parameters := [] } [] rfl
    ShaderStage.Fragment rfl (by decide)
